import Mathlib

/-!
# Verification of the NEXUS unlock validator (`init_unlock.py`)

Shallow embedding of the validation harness in `init_unlock.py`.

Modelling conventions:
* An HTTP interaction is abstracted as a `Server : String → ServerOutcome`:
  either a transport error carrying the exception text, or a response with a
  status code and a body.  Bodies are modelled at the level of parsed JSON
  values (`Json`), so `response.json()` is total in the model; `Json.null`
  plays the role of Python `None`.
* Python dynamic typing is modelled explicitly: `dict.get` on a non-dict
  raises `AttributeError`, ordering comparisons between non-numbers and an
  int raise `TypeError`, `x in s` for a non-string `s` raises, `len` of an
  unsized value raises.  Routines therefore return `Except String Bool`.
* Python truthiness (`Json.truthy`) is applied wherever the source uses a
  raw value in boolean position (`if`, `and`-chains, counting passed tests).
* Floats (`time.time()`, success rates) are modelled as `ℚ`.  Wall-clock
  time is an abstract clock `Nat → ℚ` threaded through the validator state
  and sampled once per `time.time()` call, so that timestamp-independence is
  a provable statement rather than a modelling artefact.
-/

set_option autoImplicit false

/-- Parsed JSON values; `null` also stands for Python `None`. -/
inductive Json where
  | null : Json
  | bool : Bool → Json
  | num : Int → Json
  | str : String → Json
  | arr : List Json → Json
  | obj : List (String × Json) → Json

/-- Python truthiness of a (parsed JSON) value. -/
def Json.truthy : Json → Bool
  | .null => false
  | .bool b => b
  | .num n => n != 0
  | .str s => !s.isEmpty
  | .arr xs => !xs.isEmpty
  | .obj fs => !fs.isEmpty

/-- Is the value a JSON object (a Python `dict`)? -/
def Json.isObj : Json → Bool
  | .obj _ => true
  | _ => false

/-- Exception text used by `pyGet` on a non-dict receiver. -/
def attrErrMsg : String := "AttributeError: get on non-dict value"

/-- Exception text used by `pyGt` on an unordered comparison. -/
def cmpErrMsg : String := "TypeError: unorderable types in comparison with int"

/-- Exception text used by `pyIn` when the right operand is not a string. -/
def inErrMsg : String := "TypeError: argument of membership test is not iterable"

/-- Exception text used by `pyLen` on an unsized value. -/
def lenErrMsg : String := "TypeError: object has no len"

/-- Python `value.get(key, default)`: field lookup with default on a dict,
`AttributeError` on anything else. -/
def pyGet (v : Json) (key : String) (dflt : Json) : Except String Json :=
  match v with
  | .obj fields => .ok ((List.lookup key fields).getD dflt)
  | _ => .error attrErrMsg

/-- Python `value > k` for an int literal `k`: ints compare numerically,
bools compare as 0/1, everything else raises `TypeError`. -/
def pyGt (v : Json) (k : Int) : Except String Bool :=
  match v with
  | .num n => .ok (decide (k < n))
  | .bool b => .ok (decide (k < (if b then (1 : Int) else 0)))
  | _ => .error cmpErrMsg

/-- Python `len(value)`: length of a list, string or dict, `TypeError`
otherwise. -/
def pyLen (v : Json) : Except String Nat :=
  match v with
  | .arr xs => .ok xs.length
  | .str s => .ok s.length
  | .obj fs => .ok fs.length
  | _ => .error lenErrMsg

/-- Does the character list start with the pattern `pat`? -/
def charsStart : List Char → List Char → Bool
  | _, [] => true
  | [], _ :: _ => false
  | h :: hs, p :: ps => h == p && charsStart hs ps

/-- Does the pattern `pat` occur as a contiguous sublist? -/
def charsContain (pat : List Char) : List Char → Bool
  | [] => charsStart [] pat
  | h :: hs => charsStart (h :: hs) pat || charsContain pat hs

/-- Substring containment, Python `sub in hay` for strings. -/
def strContains (hay sub : String) : Bool :=
  charsContain sub.toList hay.toList

/-- Python `any(sub in v for sub in subs)`: substring tests against a string,
`TypeError` when `v` is not a string. -/
def pyInAny (subs : List String) (v : Json) : Except String Bool :=
  match v with
  | .str s => .ok (subs.any (fun sub => strContains s sub))
  | _ => .error inErrMsg

/-- Python `value == s` for a string literal `s` (no exception; a non-string
is simply unequal). -/
def jsonEqStr (v : Json) (s : String) : Bool :=
  match v with
  | .str t => t == s
  | _ => false

/-- Python `repr`-style rendering used only inside detail strings. -/
def jsonRepr : Json → String
  | .null => "None"
  | .bool true => "True"
  | .bool false => "False"
  | .num n => toString n
  | .str s => s
  | .arr _ => "<list>"
  | .obj _ => "<dict>"

/-- Outcome of one GET request: a transport-level exception, or a response
with a status code and a parsed JSON body. -/
inductive ServerOutcome where
  | error : String → ServerOutcome
  | response : Nat → Json → ServerOutcome

/-- A deterministic server: assigns an outcome to every requested path. -/
def Server : Type := String → ServerOutcome

/-- Does `server` answer `path` with HTTP status 200? -/
def respondsWith200 (server : Server) (path : String) : Bool :=
  match server path with
  | .response code _ => code == 200
  | .error _ => false

/-- One logged test result (`log_test`): name, status marker, pass flag,
details and a timestamp. -/
structure TestResult where
  test : String
  status : String
  passed : Bool
  details : String
  timestamp : ℚ

/-- Mutable validator state: the ordered `self.test_results` list plus the
abstract wall clock (`clock` sampled at position `tick` models the next
`time.time()` call). -/
structure VState where
  test_results : List TestResult
  clock : Nat → ℚ
  tick : Nat

/-- One `time.time()` call: sample the clock and advance it. -/
def readClock (st : VState) : ℚ × VState :=
  (st.clock st.tick, { st with tick := st.tick + 1 })

/-- `log_test`: append one `TestResult` to the shared ordered list. -/
def log_test (test_name : String) (passed : Bool) (details : String)
    (st : VState) : VState :=
  let (ts, st) := readClock st
  let status := if passed then "✓ PASS" else "✗ FAIL"
  { st with test_results :=
      st.test_results ++ [⟨test_name, status, passed, details, ts⟩] }

/-- Result of `test_api_endpoint`: the Python dict
`{success, status_code?, error?, data}` (`data` is `Json.null` for `None`). -/
structure EndpointCheck where
  success : Bool
  status_code : Option Nat
  error : Option String
  data : Json

/-- `test_api_endpoint`: GET the endpoint; on a transport error return a
failed check carrying the exception text; otherwise `success` compares the
status code with `expected_status` and the body is kept only for status
200. -/
def test_api_endpoint (server : Server) (endpoint : String)
    (expected_status : Nat := 200) : EndpointCheck :=
  match server endpoint with
  | .response code body =>
      { success := code == expected_status
        status_code := some code
        error := none
        data := if code == 200 then body else Json.null }
  | .error e =>
      { success := false
        status_code := none
        error := some e
        data := Json.null }

/-- The fingerprint literal `self.fingerprint_lock`. -/
def fingerprint_lock : String := "WATSON_COMMAND_READY"

/-- The two accepted fingerprint substrings (current and expected). -/
def expected_fingerprints : List String :=
  [fingerprint_lock, "WATSON_FINAL_INFINITY_PATCH_2025_06_05"]

/-- The fixed module-access checklist of 14 API paths. -/
def moduleList : List String :=
  [ "/api/dashboard/stats"
  , "/api/dashboard/activity"
  , "/api/dashboard/learning-progress"
  , "/api/quantum/knowledge-graph"
  , "/api/market/summary"
  , "/api/market/alerts"
  , "/api/research/metrics"
  , "/api/research/targets"
  , "/api/automation/metrics"
  , "/api/kaizen/metrics"
  , "/api/infinity/health"
  , "/api/infinity/modules"
  , "/api/watson/state"
  , "/api/watson/visual-state" ]

/-- Detail fragment `result.get("status_code", "Error")`. -/
def statusDetail (r : EndpointCheck) : String :=
  match r.status_code with
  | some n => toString n
  | none => "Error"

/-- The `for module in modules` loop of `validate_dashboard_modules`:
count and log each accessible module. -/
def dashboardSweep (server : Server) : List String → Nat → VState → Nat × VState
  | [], passed_count, st => (passed_count, st)
  | m :: rest, passed_count, st =>
    let result := test_api_endpoint server m
    if result.success then
      dashboardSweep server rest (passed_count + 1)
        (log_test ("Module Access: " ++ m) true "" st)
    else
      dashboardSweep server rest passed_count
        (log_test ("Module Access: " ++ m) false
          ("Status: " ++ statusDetail result) st)

/-- `validate_dashboard_modules`: sweep the 14 fixed paths, then pass iff at
least 80% of them were accessible. -/
def validate_dashboard_modules (server : Server) (st : VState) :
    Except String Bool × VState :=
  let (passed_count, st) := dashboardSweep server moduleList 0 st
  let success_rate : ℚ := (passed_count : ℚ) / (moduleList.length : ℚ)
  let st := log_test "Dashboard Module Access" (decide ((0.8 : ℚ) ≤ success_rate))
      (toString passed_count ++ "/" ++ toString moduleList.length
        ++ " modules accessible") st
  (.ok (decide ((0.8 : ℚ) ≤ success_rate)), st)

/-- `validate_watson_command_engine`: memory awareness, fingerprint lock,
visual state and history must all hold. -/
def validate_watson_command_engine (server : Server) (st : VState) :
    Except String Bool × VState :=
  let state_result := test_api_endpoint server "/api/watson/state"
  if !state_result.success then
    (.ok false, log_test "Watson State Access" false "Cannot access Watson state" st)
  else
    let state_data := state_result.data
    match pyGet state_data "isMemoryAware" (.bool false) with
    | .error e => (.error e, st)
    | .ok jm =>
      let memory_aware := jm.truthy
      let st := log_test "Watson Memory Awareness" memory_aware
          ("Memory aware: " ++ jsonRepr jm) st
      match pyGet state_data "fingerprintLock" (.str "") with
      | .error e => (.error e, st)
      | .ok jf =>
        match pyInAny expected_fingerprints jf with
        | .error e => (.error e, st)
        | .ok fingerprint_match =>
          let st := log_test "Watson Fingerprint Lock" fingerprint_match
              ("System fingerprint: " ++ jsonRepr jf) st
          let visual_result := test_api_endpoint server "/api/watson/visual-state"
          let visual_accessible := visual_result.success
          let st := log_test "Watson Visual State" visual_accessible "" st
          let history_result := test_api_endpoint server "/api/watson/history"
          let history_accessible := history_result.success
          let st := log_test "Watson Command History" history_accessible "" st
          (.ok (memory_aware && fingerprint_match && visual_accessible
                && history_accessible), st)

/-- `validate_kaizen_agent`: active flag, optimization cycles `> 0` and
efficiency strictly `> 90`. -/
def validate_kaizen_agent (server : Server) (st : VState) :
    Except String Bool × VState :=
  let metrics_result := test_api_endpoint server "/api/kaizen/metrics"
  if !metrics_result.success then
    (.ok false, log_test "Kaizen Metrics Access" false "Cannot access Kaizen metrics" st)
  else
    let metrics_data := metrics_result.data
    match pyGet metrics_data "isActive" (.bool false) with
    | .error e => (.error e, st)
    | .ok ja =>
      let is_active := ja.truthy
      let st := log_test "Kaizen Agent Active" is_active "" st
      match pyGet metrics_data "optimizationCycles" (.num 0) with
      | .error e => (.error e, st)
      | .ok jc =>
        match pyGt jc 0 with
        | .error e => (.error e, st)
        | .ok cycles_running =>
          let st := log_test "Kaizen Optimization Cycles" cycles_running
              ("Cycles completed: " ++ jsonRepr jc) st
          match pyGet metrics_data "currentEfficiency" (.num 0) with
          | .error e => (.error e, st)
          | .ok je =>
            match pyGt je 90 with
            | .error e => (.error e, st)
            | .ok good_efficiency =>
              let st := log_test "Kaizen System Efficiency" good_efficiency
                  ("Efficiency: " ++ jsonRepr je ++ "%") st
              (.ok (is_active && cycles_running && good_efficiency), st)

/-- `validate_infinity_sovereign`: health/modules accessibility, and when the
health body is truthy, health `> 90` plus security in an allowed set. -/
def validate_infinity_sovereign (server : Server) (st : VState) :
    Except String Bool × VState :=
  let health_result := test_api_endpoint server "/api/infinity/health"
  let modules_result := test_api_endpoint server "/api/infinity/modules"
  let health_accessible := health_result.success
  let modules_accessible := modules_result.success
  let st := log_test "Infinity Health Access" health_accessible "" st
  let st := log_test "Infinity Modules Access" modules_accessible "" st
  if health_accessible && health_result.data.truthy then
    match pyGet health_result.data "overallHealth" (.num 0) with
    | .error e => (.error e, st)
    | .ok jh =>
      match pyGt jh 90 with
      | .error e => (.error e, st)
      | .ok good_health =>
        let st := log_test "System Health Status" good_health
            ("Health: " ++ jsonRepr jh ++ "%") st
        match pyGet health_result.data "securityStatus" (.str "unknown") with
        | .error e => (.error e, st)
        | .ok js =>
          let good_security := jsonEqStr js "excellent" || jsonEqStr js "good"
          let st := log_test "Security Status" good_security
              ("Security: " ++ jsonRepr js) st
          (.ok (good_health && good_security), st)
  else
    (.ok (health_accessible && modules_accessible), st)

/-- `validate_market_intelligence`: summary/alerts accessibility, and when the
summary body is truthy, data points and active sources both positive. -/
def validate_market_intelligence (server : Server) (st : VState) :
    Except String Bool × VState :=
  let summary_result := test_api_endpoint server "/api/market/summary"
  let alerts_result := test_api_endpoint server "/api/market/alerts"
  let summary_accessible := summary_result.success
  let alerts_accessible := alerts_result.success
  let st := log_test "Market Summary Access" summary_accessible "" st
  let st := log_test "Market Alerts Access" alerts_accessible "" st
  if summary_accessible && summary_result.data.truthy then
    match pyGet summary_result.data "totalDataPoints" (.num 0) with
    | .error e => (.error e, st)
    | .ok jd =>
      match pyGet summary_result.data "activeSources" (.arr []) with
      | .error e => (.error e, st)
      | .ok jsrc =>
        match pyLen jsrc with
        | .error e => (.error e, st)
        | .ok active_sources =>
          match pyGt jd 0 with
          | .error e => (.error e, st)
          | .ok has_data =>
            let has_sources := decide (0 < active_sources)
            let st := log_test "Market Data Collection" has_data
                ("Data points: " ++ jsonRepr jd) st
            let st := log_test "Market Data Sources" has_sources
                ("Active sources: " ++ toString active_sources) st
            (.ok (has_data && has_sources), st)
  else
    (.ok (summary_accessible && alerts_accessible), st)

/-- `validate_ui_readiness`: root path accessible; the WebSocket sub-check is
hardcoded to pass. -/
def validate_ui_readiness (server : Server) (st : VState) :
    Except String Bool × VState :=
  let dashboard_result := test_api_endpoint server "/" 200
  let dashboard_accessible := dashboard_result.success
  let st := log_test "Dashboard UI Access" dashboard_accessible "" st
  let websocket_configured := true
  let st := log_test "WebSocket Configuration" websocket_configured "" st
  (.ok (dashboard_accessible && websocket_configured), st)

/-- The per-category loop of `run_comprehensive_validation`: run each
category routine, catching a raised exception as one failing `TestResult`
with the exception text, and accumulate `overall_success`. -/
def runCategories :
    List (String × (VState → Except String Bool × VState)) → VState →
    List (String × Bool) × Bool × VState
  | [], st => ([], true, st)
  | (test_name, test_func) :: rest, st =>
    match test_func st with
    | (.ok b, st) =>
      let (res, overall, st) := runCategories rest st
      ((test_name, b) :: res, b && overall, st)
    | (.error e, st) =>
      let st := log_test (test_name ++ " Exception") false e st
      let (res, _, st) := runCategories rest st
      ((test_name, false) :: res, false, st)

/-- The fixed list of six category routines, in source order. -/
def categoryTests (server : Server) :
    List (String × (VState → Except String Bool × VState)) :=
  [ ("Dashboard Modules", validate_dashboard_modules server)
  , ("Watson Command Engine", validate_watson_command_engine server)
  , ("KaizenGPT Agent", validate_kaizen_agent server)
  , ("Infinity Sovereign", validate_infinity_sovereign server)
  , ("Market Intelligence", validate_market_intelligence server)
  , ("UI Readiness", validate_ui_readiness server) ]

/-- `passed_tests = sum(1 for r in self.test_results if r["passed"])`. -/
def passedTestsOf (trs : List TestResult) : Nat :=
  (trs.map (fun r => if r.passed then 1 else 0)).sum

/-- The final validation report returned by `run_comprehensive_validation`. -/
structure ValidationReport where
  overall_success : Bool
  success_rate : ℚ
  passed_tests : Nat
  total_tests : Nat
  duration : ℚ
  results : List (String × Bool)
  test_details : List TestResult
  fingerprint_validated : String

/-- `run_comprehensive_validation`: time the run, execute the six category
routines with per-category exception capture, and build the final report. -/
def run_comprehensive_validation (server : Server) (st : VState) :
    ValidationReport × VState :=
  let (start_time, st) := readClock st
  let (results, overall_success, st) := runCategories (categoryTests server) st
  let (end_time, st) := readClock st
  let duration := end_time - start_time
  let passed_tests := passedTestsOf st.test_results
  let total_tests := st.test_results.length
  let success_rate : ℚ :=
    if 0 < total_tests then ((passed_tests : ℚ) / (total_tests : ℚ)) * 100 else 0
  ({ overall_success := overall_success
     success_rate := success_rate
     passed_tests := passed_tests
     total_tests := total_tests
     duration := duration
     results := results
     test_details := st.test_results
     fingerprint_validated := fingerprint_lock }, st)

/-- A fresh validator instance with an empty result list and a given clock. -/
def initState (clk : Nat → ℚ) : VState :=
  { test_results := [], clock := clk, tick := 0 }

/-- The zero clock, used for concrete evaluations. -/
def zclock : Nat → ℚ := fun _ => 0

/-- A concrete fresh state. -/
def st0 : VState := initState zclock

/-- A server whose every request fails at the transport level. -/
def errServer : Server := fun _ => .error "Connection refused"

/-- A server answering every path with HTTP 404 and no JSON body. -/
def notFoundServer : Server := fun _ => .response 404 .null

/-- A server answering every path with Kaizen metrics at a given efficiency. -/
def kaizenServer (eff : Int) : Server := fun _ =>
  .response 200 (.obj [ ("isActive", .bool true)
                      , ("optimizationCycles", .num 5)
                      , ("currentEfficiency", .num eff) ])

/-- A server answering every path with Kaizen metrics whose
`currentEfficiency` field is the string `"95"` rather than a number. -/
def kaizenStrServer : Server := fun _ =>
  .response 200 (.obj [ ("isActive", .bool true)
                      , ("optimizationCycles", .num 5)
                      , ("currentEfficiency", .str "95") ])

/-- A server with a healthy Watson state and 200 on everything else. -/
def watsonServer : Server := fun p =>
  if p == "/api/watson/state" then
    .response 200 (.obj [ ("isMemoryAware", .bool true)
                        , ("fingerprintLock", .str "WATSON_COMMAND_READY") ])
  else .response 200 .null

/-- A server with good market-summary data but a transport failure on every
other path (in particular on the alerts endpoint). -/
def marketOnlyServer : Server := fun p =>
  if p == "/api/market/summary" then
    .response 200 (.obj [ ("totalDataPoints", .num 5)
                        , ("activeSources", .arr [.str "x"]) ])
  else .error "connection refused"

/-- A server answering every path with HTTP 200 and the JSON body `null`. -/
def nullBodyServer : Server := fun _ => .response 200 .null

/-- A category routine that raises unconditionally. -/
def boomRoutine : VState → Except String Bool × VState :=
  fun st => (.error "boom", st)

/-- Logged results with the (wall-clock dependent) timestamps erased. -/
def eraseTime (trs : List TestResult) : List (String × String × Bool × String) :=
  trs.map (fun r => (r.test, r.status, r.passed, r.details))

/-- Two validator states agree on everything the report counts observe:
their logged results coincide up to timestamps. -/
def SimR (st1 st2 : VState) : Prop :=
  eraseTime st1.test_results = eraseTime st2.test_results

/-- A state transformer whose boolean/exception outcome and whose logged
(test, status, passed, details) records do not depend on the clock. -/
def PreservesSim (f : VState → Except String Bool × VState) : Prop :=
  ∀ st1 st2, SimR st1 st2 → (f st1).1 = (f st2).1 ∧ SimR (f st1).2 (f st2).2

theorem test_api_success_eq (server : Server) (path : String) :
    (test_api_endpoint server path).success = respondsWith200 server path := by
  unfold test_api_endpoint respondsWith200
  cases server path <;> rfl

/-- C1: `test_api_endpoint` never raises; a transport error yields
`success=false` with the exception text in the `error` field and null data;
an arriving response yields `success = (status_code == expected_status)` and
the body is kept as `data` only for status 200, otherwise `data` is null. -/
theorem C1_test_api_endpoint_spec (server : Server) (path : String)
    (expected_status : Nat) :
    (∀ e, server path = .error e →
      test_api_endpoint server path expected_status =
        ⟨false, none, some e, .null⟩) ∧
    (∀ code body, server path = .response code body →
      test_api_endpoint server path expected_status =
        ⟨code == expected_status, some code, none,
          if code == 200 then body else .null⟩) := by
  constructor
  · intro e he
    simp [test_api_endpoint, he]
  · intro code body h
    simp [test_api_endpoint, h]

/-- Witness for C1 at two concrete servers: a transport failure and a
404 response checked against expected status 200. -/
theorem C1_test_api_endpoint_spec_witness :
    test_api_endpoint errServer "/api/dashboard/stats" 200 =
      ⟨false, none, some "Connection refused", .null⟩ ∧
    test_api_endpoint notFoundServer "/api/dashboard/stats" 200 =
      ⟨false, some 404, none, .null⟩ := by
  constructor
  · exact (C1_test_api_endpoint_spec errServer "/api/dashboard/stats" 200).1
      "Connection refused" rfl
  · exact ((C1_test_api_endpoint_spec notFoundServer "/api/dashboard/stats" 200).2
      404 .null rfl).trans rfl

/-- C10: `validate_ui_readiness` returns true exactly when the root path
answers with status 200, and its WebSocket sub-check is logged as passed
unconditionally (the only other logged entry is the root-path check). -/
theorem C10_ui_readiness_spec (server : Server) (st : VState) :
    (validate_ui_readiness server st).1 = .ok (respondsWith200 server "/") ∧
    (validate_ui_readiness server st).2.test_results =
      st.test_results ++
        [ ⟨"Dashboard UI Access",
            if respondsWith200 server "/" then "✓ PASS" else "✗ FAIL",
            respondsWith200 server "/", "", st.clock st.tick⟩
        , ⟨"WebSocket Configuration", "✓ PASS", true, "",
            st.clock (st.tick + 1)⟩ ] := by
  have h : (test_api_endpoint server "/" 200).success = respondsWith200 server "/" :=
    test_api_success_eq server "/"
  constructor
  · simp [validate_ui_readiness, h]
  · simp [validate_ui_readiness, log_test, readClock, h, List.append_assoc]

/-- C5: with Kaizen metrics `isActive=true`, `optimizationCycles=5` and an
integer efficiency `eff`, the agent check returns exactly `90 < eff`; hence
`eff=95` passes and `eff=90` fails (the threshold is strictly above 90). -/
theorem C5_kaizen_threshold (server : Server) (st : VState) (b : Json)
    (eff : Int) :
    server "/api/kaizen/metrics" = .response 200 b →
    pyGet b "isActive" (.bool false) = .ok (.bool true) →
    pyGet b "optimizationCycles" (.num 0) = .ok (.num 5) →
    pyGet b "currentEfficiency" (.num 0) = .ok (.num eff) →
    (validate_kaizen_agent server st).1 = .ok (decide (90 < eff)) := by
  intro hs h1 h2 h3
  have hsucc : test_api_endpoint server "/api/kaizen/metrics" =
      ⟨true, some 200, none, b⟩ := by
    simp [test_api_endpoint, hs]
  simp [validate_kaizen_agent, hsucc, h1, h2, h3, pyGt, Json.truthy]

/-- Witness for C5: efficiency 95 yields true, efficiency 90 yields false. -/
theorem C5_kaizen_threshold_witness :
    (validate_kaizen_agent (kaizenServer 95) st0).1 = .ok true ∧
    (validate_kaizen_agent (kaizenServer 90) st0).1 = .ok false := by
  constructor
  · exact (C5_kaizen_threshold (kaizenServer 95) st0 _ 95 rfl rfl rfl rfl).trans rfl
  · exact (C5_kaizen_threshold (kaizenServer 90) st0 _ 90 rfl rfl rfl rfl).trans rfl

/-- Counterexample to C6: with a good market summary and a transport failure
on the alerts endpoint, `validate_market_intelligence` logs the alerts
sub-check as failed yet still returns true, so the routine is not the AND of
all the sub-check booleans it logs. -/
theorem C6_market_counterexample :
    (validate_market_intelligence marketOnlyServer st0).1 = .ok true ∧
    (test_api_endpoint marketOnlyServer "/api/market/alerts").success = false ∧
    ((validate_market_intelligence marketOnlyServer st0).2.test_results.map
        (fun r => (r.test, r.passed))) =
      [ ("Market Summary Access", true), ("Market Alerts Access", false)
      , ("Market Data Collection", true), ("Market Data Sources", true) ] := by
  exact ⟨rfl, rfl, rfl⟩

/-- C6 (amended): when the summary endpoint does not succeed with a truthy
body, `validate_market_intelligence` returns `summary_accessible AND
alerts_accessible`; but when the summary succeeds with a truthy body, it
returns `has_data AND has_sources` and ignores the alerts result entirely. -/
theorem C6_market_amended :
    (∀ (server : Server) (st : VState),
      ((test_api_endpoint server "/api/market/summary").success
        && (test_api_endpoint server "/api/market/summary").data.truthy) = false →
      (validate_market_intelligence server st).1 =
        .ok ((test_api_endpoint server "/api/market/summary").success
             && (test_api_endpoint server "/api/market/alerts").success)) ∧
    (∀ (server : Server) (st : VState) (b : Json) (n : Int) (xs : List Json),
      server "/api/market/summary" = .response 200 b →
      b.truthy = true →
      pyGet b "totalDataPoints" (.num 0) = .ok (.num n) →
      pyGet b "activeSources" (.arr []) = .ok (.arr xs) →
      (validate_market_intelligence server st).1 =
        .ok (decide (0 < n) && decide (0 < xs.length))) := by
  constructor
  · intro server st h
    simp only [validate_market_intelligence]
    rw [h]
    simp
  · intro server st b n xs hs ht h1 h2
    have hsucc : test_api_endpoint server "/api/market/summary" =
        ⟨true, some 200, none, b⟩ := by
      simp [test_api_endpoint, hs]
    simp [validate_market_intelligence, hsucc, ht, h1, h2, pyLen, pyGt]

/-- Witness for C6 (amended): the truthy-summary branch at the concrete
server with failing alerts, and the all-failing branch at a transport-error
server. -/
theorem C6_market_amended_witness :
    (validate_market_intelligence marketOnlyServer (initState (fun _ => 1))).1 =
      .ok true ∧
    (validate_market_intelligence errServer st0).1 = .ok false := by
  constructor
  · exact (C6_market_amended.2 marketOnlyServer (initState (fun _ => 1)) _ 5
      [.str "x"] rfl rfl rfl rfl).trans rfl
  · exact (C6_market_amended.1 errServer st0 rfl).trans rfl

/-- Counterexample to C7: a successful (status 200) response whose parsed
body is JSON `null` makes the field extraction in the Watson routine raise
an `AttributeError` out of the routine, and a Kaizen metrics body whose
`currentEfficiency` field is a string makes the threshold comparison raise a
`TypeError`; extraction is not exception-free for every parsed JSON body. -/
theorem C7_defaults_counterexample :
    (validate_watson_command_engine nullBodyServer st0).1 = .error attrErrMsg ∧
    (validate_kaizen_agent kaizenStrServer st0).1 = .error cmpErrMsg := by
  exact ⟨rfl, rfl⟩

/-- C7 (amended): on a JSON-object body, `get` never raises and a missing
field yields the supplied default, and the defaults used by the routines all
fail their thresholds; on any non-object body (null, array, string, number,
boolean) the field extraction raises an `AttributeError`, which is caught
only at the orchestration layer. -/
theorem C7_defaults_amended :
    (∀ (fields : List (String × Json)) (key : String) (dflt : Json),
      pyGet (.obj fields) key dflt = .ok ((List.lookup key fields).getD dflt)) ∧
    (∀ (fields : List (String × Json)) (key : String) (dflt : Json),
      List.lookup key fields = none → pyGet (.obj fields) key dflt = .ok dflt) ∧
    (∀ (v : Json) (key : String) (dflt : Json),
      v.isObj = false → pyGet v key dflt = .error attrErrMsg) ∧
    ((Json.bool false).truthy = false ∧ pyGt (.num 0) 0 = .ok false ∧
      pyGt (.num 0) 90 = .ok false ∧
      pyInAny expected_fingerprints (.str "") = .ok false) := by
  refine ⟨fun _ _ _ => rfl, ?_, ?_, by decide, rfl, rfl, ?_⟩
  · intro fields key dflt h
    simp [pyGet, h]
  · intro v key dflt h
    cases v <;> simp_all [pyGet, Json.isObj]
  · rfl

/-- Witness for C7 (amended): a concrete missing field defaults, and the
concrete null body raises. -/
theorem C7_defaults_amended_witness :
    pyGet (.obj [("other", .num 1)]) "isMemoryAware" (.bool false) =
      .ok (.bool false) ∧
    pyGet .null "isMemoryAware" (.bool false) = .error attrErrMsg := by
  constructor
  · exact C7_defaults_amended.2.1 [("other", .num 1)] "isMemoryAware"
      (.bool false) rfl
  · exact C7_defaults_amended.2.2.1 .null "isMemoryAware" (.bool false) rfl

theorem dashboardSweep_count (server : Server) :
    ∀ (ms : List String) (c : Nat) (st : VState),
      (dashboardSweep server ms c st).1 =
        c + ms.countP (fun m => (test_api_endpoint server m).success) := by
  intro ms
  induction ms with
  | nil => intro c st; simp [dashboardSweep]
  | cons m rest ih =>
    intro c st
    unfold dashboardSweep
    cases h : (test_api_endpoint server m).success <;>
      simp [h, ih, List.countP_cons] <;> omega

theorem rate_ge_iff (c : Nat) : ((0.8 : ℚ) ≤ (c : ℚ) / 14) ↔ 12 ≤ c := by
  rw [le_div_iff (by norm_num : (0 : ℚ) < 14)]
  constructor
  · intro h
    have h11 : (11 : ℚ) < (c : ℚ) := by linarith
    have : (11 : ℕ) < c := by exact_mod_cast h11
    omega
  · intro h
    have : (12 : ℚ) ≤ (c : ℚ) := by exact_mod_cast h
    linarith

/-- C3: `validate_dashboard_modules` passes exactly when at least 12 of the
14 fixed module paths (that is, at least 80% of them) answer with status
200, and an individual path succeeds exactly when the server answers it with
status 200. -/
theorem C3_dashboard_modules_spec (server : Server) (st : VState) :
    (validate_dashboard_modules server st).1 =
      .ok (decide (12 ≤ moduleList.countP (fun m => respondsWith200 server m))) ∧
    (∀ m : String, (test_api_endpoint server m).success = respondsWith200 server m) ∧
    moduleList.length = 14 := by
  refine ⟨?_, fun m => test_api_success_eq server m, rfl⟩
  rcases hds : dashboardSweep server moduleList 0 st with ⟨cnt, st1⟩
  have hc : cnt = moduleList.countP (fun m => respondsWith200 server m) := by
    have h0 := dashboardSweep_count server moduleList 0 st
    rw [hds] at h0
    simpa [test_api_success_eq] using h0
  simp only [validate_dashboard_modules, hds]
  have hlen : ((moduleList.length : Nat) : ℚ) = 14 := by norm_num [moduleList]
  rw [hlen, hc]
  congr 1
  rw [decide_eq_decide]
  exact rate_ge_iff _

/-- C4: when the state endpoint answers 200 with a body whose
`isMemoryAware` field extracts to `jm` and whose `fingerprintLock` field is
the string `fps`, `validate_watson_command_engine` returns exactly the
conjunction of memory awareness, the fingerprint containing one of the two
accepted literals, and the visual-state and history endpoints answering
200 — so it is true when all four conditions hold and false when any single
one is flipped. -/
theorem C4_watson_conditions (server : Server) (st : VState) (b jm : Json)
    (fps : String) :
    server "/api/watson/state" = .response 200 b →
    pyGet b "isMemoryAware" (.bool false) = .ok jm →
    pyGet b "fingerprintLock" (.str "") = .ok (.str fps) →
    (validate_watson_command_engine server st).1 =
      .ok (jm.truthy
           && expected_fingerprints.any (fun fp => strContains fps fp)
           && respondsWith200 server "/api/watson/visual-state"
           && respondsWith200 server "/api/watson/history") := by
  intro hs h1 h2
  have hsucc : test_api_endpoint server "/api/watson/state" =
      ⟨true, some 200, none, b⟩ := by
    simp [test_api_endpoint, hs]
  simp [validate_watson_command_engine, hsucc, h1, h2, pyInAny,
    test_api_success_eq]

/-- Witness for C4: a server meeting all four conditions yields true. -/
theorem C4_watson_conditions_witness :
    (validate_watson_command_engine watsonServer st0).1 = .ok true := by
  exact (C4_watson_conditions watsonServer st0 _ (.bool true)
    "WATSON_COMMAND_READY" rfl rfl rfl).trans rfl

theorem passedTestsOf_eq_countP (trs : List TestResult) :
    passedTestsOf trs = trs.countP (fun t => t.passed) := by
  induction trs with
  | nil => rfl
  | cons t rest ih =>
    simp [passedTestsOf, List.countP_cons] at *
    cases h : t.passed <;> simp [h, ih] <;> omega

/-- C8: in the final report, `passed_tests` counts the logged entries with
`passed = true`, `total_tests` is the number of logged entries, and
`success_rate` is `passed_tests/total_tests*100` with `0` when
`total_tests = 0`. -/
theorem C8_report_counts (server : Server) (st : VState) :
    (run_comprehensive_validation server st).1.passed_tests =
      ((run_comprehensive_validation server st).1.test_details.countP
        (fun t => t.passed)) ∧
    (run_comprehensive_validation server st).1.total_tests =
      (run_comprehensive_validation server st).1.test_details.length ∧
    (run_comprehensive_validation server st).1.success_rate =
      (if (run_comprehensive_validation server st).1.total_tests = 0 then 0
       else ((run_comprehensive_validation server st).1.passed_tests : ℚ)
              / ((run_comprehensive_validation server st).1.total_tests : ℚ)
              * 100) := by
  unfold run_comprehensive_validation
  simp only [readClock]
  rcases hrc : runCategories (categoryTests server) { st with tick := st.tick + 1 }
    with ⟨res, ov, st2⟩
  simp only [hrc]
  refine ⟨passedTestsOf_eq_countP _, trivial, ?_⟩
  rcases Nat.eq_zero_or_pos st2.test_results.length with h | h
  · simp [h]
  · simp [h, Nat.pos_iff_ne_zero.mp h]

theorem runCategories_overall_eq_all :
    ∀ (cats : List (String × (VState → Except String Bool × VState)))
      (st : VState),
      (runCategories cats st).2.1 = (runCategories cats st).1.all (fun r => r.2) := by
  intro cats
  induction cats with
  | nil => intro st; rfl
  | cons c rest ih =>
    intro st
    rcases c with ⟨test_name, test_func⟩
    unfold runCategories
    rcases hf : test_func st with ⟨r, st1⟩
    cases r with
    | ok b =>
      rcases hrc : runCategories rest st1 with ⟨res, overall, st2⟩
      have h := ih st1
      rw [hrc] at h
      simp at h
      simp [hf, hrc, h]
    | error e =>
      rcases hrc : runCategories rest
          (log_test (test_name ++ " Exception") false e st1) with ⟨res, overall, st2⟩
      simp [hf, hrc]

theorem runCategories_names :
    ∀ (cats : List (String × (VState → Except String Bool × VState)))
      (st : VState),
      (runCategories cats st).1.map Prod.fst = cats.map Prod.fst := by
  intro cats
  induction cats with
  | nil => intro st; rfl
  | cons c rest ih =>
    intro st
    rcases c with ⟨test_name, test_func⟩
    unfold runCategories
    rcases hf : test_func st with ⟨r, st1⟩
    cases r with
    | ok b =>
      rcases hrc : runCategories rest st1 with ⟨res, overall, st2⟩
      have h := ih st1
      rw [hrc] at h
      simp [hf, hrc, h]
    | error e =>
      rcases hrc : runCategories rest
          (log_test (test_name ++ " Exception") false e st1) with ⟨res, overall, st2⟩
      have h := ih (log_test (test_name ++ " Exception") false e st1)
      rw [hrc] at h
      simp [hf, hrc, h]

/-- C2: the per-category loop catches a raised exception, records it as one
failing `TestResult` whose details are the exception text, keeps running the
remaining categories, and the loop's `overall_success` is the AND of all
recorded category results; `run_comprehensive_validation` runs exactly the
six categories this way. -/
theorem C2_orchestration_spec :
    (∀ (cats : List (String × (VState → Except String Bool × VState)))
       (st : VState),
      (runCategories cats st).2.1 =
        (runCategories cats st).1.all (fun r => r.2)) ∧
    (∀ (test_name : String) (test_func : VState → Except String Bool × VState)
       (rest : List (String × (VState → Except String Bool × VState)))
       (st st1 : VState) (e : String),
      test_func st = (.error e, st1) →
      runCategories ((test_name, test_func) :: rest) st =
        ((test_name, false) ::
            (runCategories rest
              (log_test (test_name ++ " Exception") false e st1)).1,
         false,
         (runCategories rest
            (log_test (test_name ++ " Exception") false e st1)).2.2)) ∧
    (∀ (server : Server) (st : VState),
      (run_comprehensive_validation server st).1.overall_success =
        (run_comprehensive_validation server st).1.results.all (fun r => r.2) ∧
      (run_comprehensive_validation server st).1.results.map Prod.fst =
        [ "Dashboard Modules", "Watson Command Engine", "KaizenGPT Agent"
        , "Infinity Sovereign", "Market Intelligence", "UI Readiness" ]) := by
  refine ⟨runCategories_overall_eq_all, ?_, ?_⟩
  · intro test_name test_func rest st st1 e hf
    rcases hrc : runCategories rest
        (log_test (test_name ++ " Exception") false e st1) with ⟨res, overall, st2⟩
    conv_lhs => rw [runCategories]
    rw [hf]
    simp only [hrc]
  · intro server st
    unfold run_comprehensive_validation
    simp only [readClock]
    rcases hrc : runCategories (categoryTests server)
        { st with tick := st.tick + 1 } with ⟨res, ov, st2⟩
    have h1 := runCategories_overall_eq_all (categoryTests server)
      { st with tick := st.tick + 1 }
    have h2 := runCategories_names (categoryTests server)
      { st with tick := st.tick + 1 }
    rw [hrc] at h1 h2
    simp only [hrc]
    exact ⟨h1, by rw [h2]; rfl⟩

/-- Witness for C2: a routine that raises `"boom"` is recorded as one
failing result named after the category and the run goes on. -/
theorem C2_orchestration_spec_witness :
    runCategories [("Watson Command Engine", boomRoutine)] st0 =
      ([("Watson Command Engine", false)], false,
        log_test "Watson Command Engine Exception" false "boom" st0) := by
  exact (C2_orchestration_spec.2.1 "Watson Command Engine" boomRoutine [] st0
    st0 "boom" rfl).trans rfl

theorem simR_log (n : String) (p : Bool) (d : String) {st1 st2 : VState}
    (h : SimR st1 st2) : SimR (log_test n p d st1) (log_test n p d st2) := by
  unfold SimR eraseTime log_test readClock at *
  simp only [List.map_append, List.map_cons, List.map_nil]
  rw [h]

theorem sim_watson (server : Server) :
    PreservesSim (validate_watson_command_engine server) := by
  intro st1 st2 h
  unfold validate_watson_command_engine
  cases hs : (test_api_endpoint server "/api/watson/state").success
  · simp only [hs]
    simp
    exact simR_log _ _ _ h
  · simp only [hs]
    simp only [Bool.not_true, Bool.false_eq_true, if_false]
    cases h1 : pyGet (test_api_endpoint server "/api/watson/state").data
        "isMemoryAware" (Json.bool false) with
    | error e => simp [h1]; exact h
    | ok jm =>
      simp only [h1]
      cases h2 : pyGet (test_api_endpoint server "/api/watson/state").data
          "fingerprintLock" (Json.str "") with
      | error e => simp [h2]; exact simR_log _ _ _ h
      | ok jf =>
        simp only [h2]
        cases h3 : pyInAny expected_fingerprints jf with
        | error e => simp [h3]; exact simR_log _ _ _ h
        | ok fm =>
          simp [h3]
          exact simR_log _ _ _ (simR_log _ _ _ (simR_log _ _ _
            (simR_log _ _ _ h)))

theorem sim_kaizen (server : Server) :
    PreservesSim (validate_kaizen_agent server) := by
  intro st1 st2 h
  unfold validate_kaizen_agent
  cases hs : (test_api_endpoint server "/api/kaizen/metrics").success
  · simp only [hs]
    simp
    exact simR_log _ _ _ h
  · simp only [hs, Bool.not_true, Bool.false_eq_true, if_false]
    cases h1 : pyGet (test_api_endpoint server "/api/kaizen/metrics").data
        "isActive" (Json.bool false) with
    | error e => simp [h1]; exact h
    | ok ja =>
      simp only [h1]
      cases h2 : pyGet (test_api_endpoint server "/api/kaizen/metrics").data
          "optimizationCycles" (Json.num 0) with
      | error e => simp [h2]; exact simR_log _ _ _ h
      | ok jc =>
        simp only [h2]
        cases h3 : pyGt jc 0 with
        | error e => simp [h3]; exact simR_log _ _ _ h
        | ok cyc =>
          simp only [h3]
          cases h4 : pyGet (test_api_endpoint server "/api/kaizen/metrics").data
              "currentEfficiency" (Json.num 0) with
          | error e => simp [h4]; exact simR_log _ _ _ (simR_log _ _ _ h)
          | ok je =>
            simp only [h4]
            cases h5 : pyGt je 90 with
            | error e => simp [h5]; exact simR_log _ _ _ (simR_log _ _ _ h)
            | ok eff =>
              simp [h5]
              exact simR_log _ _ _ (simR_log _ _ _ (simR_log _ _ _ h))

theorem sim_infinity (server : Server) :
    PreservesSim (validate_infinity_sovereign server) := by
  intro st1 st2 h
  unfold validate_infinity_sovereign
  cases hc : ((test_api_endpoint server "/api/infinity/health").success
      && (test_api_endpoint server "/api/infinity/health").data.truthy)
  · simp only [hc]
    simp
    exact simR_log _ _ _ (simR_log _ _ _ h)
  · simp only [hc]
    cases h1 : pyGet (test_api_endpoint server "/api/infinity/health").data
        "overallHealth" (Json.num 0) with
    | error e => simp [h1]; exact simR_log _ _ _ (simR_log _ _ _ h)
    | ok jh =>
      simp only [h1]
      cases h2 : pyGt jh 90 with
      | error e => simp [h2]; exact simR_log _ _ _ (simR_log _ _ _ h)
      | ok gh =>
        simp only [h2]
        cases h3 : pyGet (test_api_endpoint server "/api/infinity/health").data
            "securityStatus" (Json.str "unknown") with
        | error e =>
          simp [h3]
          exact simR_log _ _ _ (simR_log _ _ _ (simR_log _ _ _ h))
        | ok js =>
          simp [h3]
          exact simR_log _ _ _ (simR_log _ _ _ (simR_log _ _ _
            (simR_log _ _ _ h)))

theorem sim_market (server : Server) :
    PreservesSim (validate_market_intelligence server) := by
  intro st1 st2 h
  unfold validate_market_intelligence
  cases hc : ((test_api_endpoint server "/api/market/summary").success
      && (test_api_endpoint server "/api/market/summary").data.truthy)
  · simp only [hc]
    simp
    exact simR_log _ _ _ (simR_log _ _ _ h)
  · simp only [hc]
    cases h1 : pyGet (test_api_endpoint server "/api/market/summary").data
        "totalDataPoints" (Json.num 0) with
    | error e => simp [h1]; exact simR_log _ _ _ (simR_log _ _ _ h)
    | ok jd =>
      simp only [h1]
      cases h2 : pyGet (test_api_endpoint server "/api/market/summary").data
          "activeSources" (Json.arr []) with
      | error e => simp [h2]; exact simR_log _ _ _ (simR_log _ _ _ h)
      | ok jsrc =>
        simp only [h2]
        cases h3 : pyLen jsrc with
        | error e => simp [h3]; exact simR_log _ _ _ (simR_log _ _ _ h)
        | ok nsrc =>
          simp only [h3]
          cases h4 : pyGt jd 0 with
          | error e => simp [h4]; exact simR_log _ _ _ (simR_log _ _ _ h)
          | ok hd =>
            simp [h4]
            exact simR_log _ _ _ (simR_log _ _ _ (simR_log _ _ _
              (simR_log _ _ _ h)))

theorem sim_ui (server : Server) :
    PreservesSim (validate_ui_readiness server) := by
  intro st1 st2 h
  unfold validate_ui_readiness
  exact ⟨rfl, simR_log _ _ _ (simR_log _ _ _ h)⟩

theorem sim_sweep (server : Server) :
    ∀ (ms : List String) (c : Nat) (st1 st2 : VState), SimR st1 st2 →
      (dashboardSweep server ms c st1).1 = (dashboardSweep server ms c st2).1 ∧
      SimR (dashboardSweep server ms c st1).2 (dashboardSweep server ms c st2).2 := by
  intro ms
  induction ms with
  | nil => intro c st1 st2 h; exact ⟨rfl, h⟩
  | cons m rest ih =>
    intro c st1 st2 h
    unfold dashboardSweep
    cases hs : (test_api_endpoint server m).success
    · simp only [hs, Bool.false_eq_true, if_false]
      exact ih c _ _ (simR_log _ _ _ h)
    · simp only [hs, if_true]
      exact ih (c + 1) _ _ (simR_log _ _ _ h)

theorem sim_dashboard (server : Server) :
    PreservesSim (validate_dashboard_modules server) := by
  intro st1 st2 h
  unfold validate_dashboard_modules
  rcases h1 : dashboardSweep server moduleList 0 st1 with ⟨c1, s1⟩
  rcases h2 : dashboardSweep server moduleList 0 st2 with ⟨c2, s2⟩
  have hsw := sim_sweep server moduleList 0 st1 st2 h
  rw [h1, h2] at hsw
  obtain ⟨hc, hs⟩ := hsw
  simp only at hc
  subst hc
  simp only [h1, h2]
  exact ⟨trivial, simR_log _ _ _ hs⟩

theorem sim_runCategories :
    ∀ (cats : List (String × (VState → Except String Bool × VState))),
      (∀ c ∈ cats, PreservesSim c.2) →
      ∀ (st1 st2 : VState), SimR st1 st2 →
        (runCategories cats st1).1 = (runCategories cats st2).1 ∧
        (runCategories cats st1).2.1 = (runCategories cats st2).2.1 ∧
        SimR (runCategories cats st1).2.2 (runCategories cats st2).2.2 := by
  intro cats
  induction cats with
  | nil => intro _ st1 st2 h; exact ⟨rfl, rfl, h⟩
  | cons c rest ih =>
    intro hall st1 st2 h
    rcases c with ⟨test_name, test_func⟩
    have hf := hall ⟨test_name, test_func⟩ (List.mem_cons_self _ _) st1 st2 h
    have ihrest := ih (fun c hc => hall c (List.mem_cons_of_mem _ hc))
    simp only at hf
    rcases hf1 : test_func st1 with ⟨r1, s1⟩
    rcases hf2 : test_func st2 with ⟨r2, s2⟩
    rw [hf1, hf2] at hf
    obtain ⟨hr, hsim⟩ := hf
    simp only at hr hsim
    subst hr
    unfold runCategories
    cases r1 with
    | ok b =>
      rcases hrc1 : runCategories rest s1 with ⟨res1, ov1, t1⟩
      rcases hrc2 : runCategories rest s2 with ⟨res2, ov2, t2⟩
      have h3 := ihrest s1 s2 hsim
      rw [hrc1, hrc2] at h3
      simp only at h3
      obtain ⟨e1, e2, e3⟩ := h3
      subst e1 e2
      simp [hf1, hf2, hrc1, hrc2]
      exact e3
    | error e =>
      have hsim2 := simR_log (test_name ++ " Exception") false e hsim
      rcases hrc1 : runCategories rest
          (log_test (test_name ++ " Exception") false e s1) with ⟨res1, ov1, t1⟩
      rcases hrc2 : runCategories rest
          (log_test (test_name ++ " Exception") false e s2) with ⟨res2, ov2, t2⟩
      have h3 := ihrest _ _ hsim2
      rw [hrc1, hrc2] at h3
      simp only at h3
      obtain ⟨e1, e2, e3⟩ := h3
      subst e1 e2
      simp [hf1, hf2, hrc1, hrc2]
      exact e3

theorem catsPreserveSim (server : Server) :
    ∀ c ∈ categoryTests server, PreservesSim c.2 := by
  intro c hc
  simp only [categoryTests, List.mem_cons, List.not_mem_nil, or_false] at hc
  rcases hc with h | h | h | h | h | h <;> subst h
  · exact sim_dashboard server
  · exact sim_watson server
  · exact sim_kaizen server
  · exact sim_infinity server
  · exact sim_market server
  · exact sim_ui server

theorem eraseTime_counts {l1 l2 : List TestResult}
    (h : eraseTime l1 = eraseTime l2) :
    passedTestsOf l1 = passedTestsOf l2 ∧ l1.length = l2.length := by
  constructor
  · rw [passedTestsOf_eq_countP, passedTestsOf_eq_countP]
    have h1 : (eraseTime l1).countP (fun e => e.2.2.1) =
        (eraseTime l2).countP (fun e => e.2.2.1) := by rw [h]
    simpa [eraseTime, List.countP_map, Function.comp] using h1
  · have h1 : (eraseTime l1).length = (eraseTime l2).length := by rw [h]
    simpa [eraseTime] using h1

/-- C9: against a fixed server, two runs on fresh validator instances that
differ only in their wall clocks produce identical `overall_success`,
`passed_tests` and `total_tests` (durations and timestamps are the only
clock-dependent outputs). -/
theorem C9_run_deterministic (server : Server) (clk1 clk2 : Nat → ℚ) :
    (run_comprehensive_validation server (initState clk1)).1.overall_success =
      (run_comprehensive_validation server (initState clk2)).1.overall_success ∧
    (run_comprehensive_validation server (initState clk1)).1.passed_tests =
      (run_comprehensive_validation server (initState clk2)).1.passed_tests ∧
    (run_comprehensive_validation server (initState clk1)).1.total_tests =
      (run_comprehensive_validation server (initState clk2)).1.total_tests := by
  have h0 : SimR ⟨[], clk1, 1⟩ ⟨[], clk2, 1⟩ := rfl
  have hsim := sim_runCategories (categoryTests server) (catsPreserveSim server)
    ⟨[], clk1, 1⟩ ⟨[], clk2, 1⟩ h0
  unfold run_comprehensive_validation
  simp only [readClock, initState]
  rcases hrc1 : runCategories (categoryTests server) ⟨[], clk1, 1⟩
    with ⟨res1, ov1, s1⟩
  rcases hrc2 : runCategories (categoryTests server) ⟨[], clk2, 1⟩
    with ⟨res2, ov2, s2⟩
  rw [hrc1, hrc2] at hsim
  simp only at hsim
  obtain ⟨hres, hov, hst⟩ := hsim
  have hcounts := eraseTime_counts hst
  simp only [hrc1, hrc2]
  exact ⟨hov, hcounts.1, hcounts.2⟩
